import Mathlib

/-!
Shallow embedding of `demos/common/cpp/utils/src/images_capture.cpp`: the four
image-capture readers (still image, directory of images, video file, camera)
and the resolver `openImagesCapture`.  External effects — the file system,
OpenCV decoding and the camera hardware — are modelled by an explicit
environment `Env`; a non-empty decoded `cv::Mat` is `some img`, the empty
`cv::Mat{}` is `none`.
-/

namespace ImagesCapture

/-- Content of a successfully decoded, non-empty `cv::Mat`. -/
abbrev Img := Nat

/-- Probe failure taxonomy of the resolver: `InvalidInput` stands for "not
this kind of source", `OpenError` for "this kind of source but it could not
be opened". -/
inductive CapError where
  | invalidInput : String → CapError
  | openError : String → CapError
deriving DecidableEq, Repr

/-- Message carried by a probe error (`std::runtime_error::what()`). -/
def CapError.msg : CapError → String
  | .invalidInput m => m
  | .openError m => m

/-- True exactly for the stronger `OpenError` diagnostic. -/
def CapError.isOpen : CapError → Bool
  | .invalidInput _ => false
  | .openError _ => true

/-- Environment: the observable behaviour of the file system and of the
OpenCV collaborators, one field per primitive the C++ code calls.
`stoi` collapses `std::invalid_argument` and `std::out_of_range` to `none`
because the code maps both to the same `InvalidInput` error. -/
structure Env where
  fileGood : String → Bool
  imread : String → Option Img
  dirEntries : String → Option (List String)
  videoOpen : String → Bool
  videoSeek : Bool
  videoFrame : Nat → Option Img
  stoi : String → Option Int
  cameraOpen : Int → Bool

/-! ## ImreadWrapper (still image) -/

/-- State of `ImreadWrapper`: the decoded image, the loop flag and the
`canRead` flag. -/
structure ImreadState where
  img : Img
  loop : Bool
  canRead : Bool
deriving DecidableEq, Repr

/-- Constructor `ImreadWrapper::ImreadWrapper`: a path that is not a readable
file gives `InvalidInput`; a file that does not decode gives `OpenError`. -/
def ImreadWrapper.construct (env : Env) (input : String) (loop : Bool) :
    Except CapError ImreadState :=
  if !env.fileGood input then
    .error (.invalidInput ("Can't find the image by " ++ input))
  else
    match env.imread input with
    | none => .error (.openError ("Can't open the image from " ++ input))
    | some i => .ok { img := i, loop := loop, canRead := true }

/-- Method `ImreadWrapper::read`: the returned frame and the state after the
call. -/
def ImreadState.read (s : ImreadState) : Option Img × ImreadState :=
  if s.loop then (some s.img, s)
  else if s.canRead then (some s.img, { s with canRead := false })
  else (none, s)

/-- Repeated calls of `ImreadWrapper::read`: the outputs in order, and the
final state. -/
def imreadReadN : Nat → ImreadState → List (Option Img) × ImreadState
  | 0, s => ([], s)
  | n + 1, s =>
    let p := s.read
    let q := imreadReadN n p.2
    (p.1 :: q.1, q.2)

/-! ## DirReader (directory of images) -/

/-- Lexicographic insertion, used to model `std::sort` on the directory
listing (`std::string` comparison is lexicographic). -/
def insertName (x : String) : List String → List String
  | [] => [x]
  | y :: ys => if x ≤ y then x :: y :: ys else y :: insertName x ys

/-- Model of `sort(names.begin(), names.end())`. -/
def sortNames (l : List String) : List String := l.foldr insertName []

/-- Decoding of a directory entry: `cv::imread(input + '/' + name)`. -/
def dirDecode (env : Env) (input : String) : String → Option Img :=
  fun name => env.imread (input ++ "/" ++ name)

/-- Scan of a directory suffix for the `k`-th (0-based) entry that `decode`
accepts, mirroring the scanning loops of `DirReader`: the decoded image and
the number of entries consumed, the found entry included. -/
def findNthImage (decode : String → Option Img) : Nat → List String → Option (Img × Nat)
  | _, [] => none
  | k, n :: rest =>
    match decode n with
    | some img =>
      match k with
      | 0 => some (img, 1)
      | k' + 1 => (findNthImage decode k' rest).map fun p => (p.1, p.2 + 1)
    | none => (findNthImage decode k rest).map fun p => (p.1, p.2 + 1)

/-- State of `DirReader`: the sorted listing, the file cursor, the per-pass
delivered count, and the construction parameters. -/
structure DirState where
  names : List String
  fileId : Nat
  nextImgId : Nat
  initialImageId : Nat
  readLengthLimit : Nat
  input : String
  loop : Bool
deriving DecidableEq, Repr

/-- Constructor `DirReader::DirReader`: list the directory (`.` and `..`
excluded, `InvalidInput` when `opendir` fails), require a non-empty listing
(`OpenError` otherwise), sort it, and advance `fileId` to the
`initialImageId`-th decodable entry, leaving `fileId` at that entry
(`OpenError` when there is none). -/
def DirReader.construct (env : Env) (input : String) (loop : Bool)
    (initialImageId readLengthLimit : Nat) : Except CapError DirState :=
  match env.dirEntries input with
  | none => .error (.invalidInput ("Can't find the dir by " ++ input))
  | some entries =>
    let names := entries.filter fun n => n != "." && n != ".."
    if names.isEmpty then .error (.openError ("The dir " ++ input ++ " is empty"))
    else
      match findNthImage (dirDecode env input) initialImageId (sortNames names) with
      | some p =>
        .ok { names := sortNames names, fileId := p.2 - 1, nextImgId := 0,
              initialImageId := initialImageId, readLengthLimit := readLengthLimit,
              input := input, loop := loop }
      | none => .error (.openError ("Can't read the first image from " ++ input))

/-- Loop-restart path of `DirReader::read` (the `if (loop)` block): rescan
the whole listing from position 0, skip `initialImageId` decodable entries
silently, and return the next decodable one with the per-pass counter reset
to 1; return the empty frame when not looping or when no such entry exists. -/
def DirState.restart (env : Env) (s : DirState) : Option Img × DirState :=
  if s.loop then
    match findNthImage (dirDecode env s.input) s.initialImageId s.names with
    | some p => (some p.1, { s with fileId := p.2, nextImgId := 1 })
    | none => (none, { s with fileId := s.names.length })
  else (none, s)

/-- Method `DirReader::read`: while `fileId < names.size()` and
`nextImgId < readLengthLimit`, scan forward for the next decodable entry
(undecodable entries are skipped silently); on exhaustion take the
loop-restart path. -/
def DirState.read (env : Env) (s : DirState) : Option Img × DirState :=
  if s.nextImgId < s.readLengthLimit then
    match findNthImage (dirDecode env s.input) 0 (s.names.drop s.fileId) with
    | some p =>
      (some p.1, { s with fileId := s.fileId + p.2, nextImgId := s.nextImgId + 1 })
    | none => DirState.restart env { s with fileId := s.names.length }
  else DirState.restart env s

/-- Repeated calls of `DirReader::read`. -/
def dirReadN (env : Env) : Nat → DirState → List (Option Img) × DirState
  | 0, s => ([], s)
  | m + 1, s =>
    let p := DirState.read env s
    let q := dirReadN env m p.2
    (p.1 :: q.1, q.2)

/-! ## VideoCapWrapper (video file) -/

/-- State of `VideoCapWrapper`: the capture position (`CAP_PROP_POS_FRAMES`),
the per-pass delivered count and the construction parameters. -/
structure VideoState where
  pos : Nat
  nextImgId : Nat
  initialImageId : Nat
  readLengthLimit : Nat
  loop : Bool
deriving DecidableEq, Repr

/-- Model of `cv::VideoCapture::read` on a video file: return the frame at
the current position and advance on success; on decode failure the output
`cv::Mat` stays empty and the position does not advance. -/
def vcapRead (frameAt : Nat → Option Img) (pos : Nat) : Option Img × Nat :=
  match frameAt pos with
  | some i => (some i, pos + 1)
  | none => (none, pos)

/-- Constructor `VideoCapWrapper::VideoCapWrapper`: a source the video
backend cannot open gives `InvalidInput`; a failed seek to `initialImageId`
gives `OpenError`. -/
def VideoCapWrapper.construct (env : Env) (input : String) (loop : Bool)
    (initialImageId readLengthLimit : Nat) : Except CapError VideoState :=
  if env.videoOpen input then
    if env.videoSeek then
      .ok { pos := initialImageId, nextImgId := 0, initialImageId := initialImageId,
            readLengthLimit := readLengthLimit, loop := loop }
    else .error (.openError "Can't set the frame to begin with")
  else .error (.invalidInput ("Can't open the video from " ++ input))

/-- Method `VideoCapWrapper::read`: once the limit is reached, loop (reseek
and deliver from `initialImageId`, counter reset to 1) or return empty;
otherwise decode the next frame, and on a decode failure with looping
enabled reseek to `initialImageId` and decode from there (counter reset to
1), else increment the counter and return the (then empty) frame. -/
def VideoState.read (env : Env) (s : VideoState) : Option Img × VideoState :=
  if s.readLengthLimit ≤ s.nextImgId then
    if s.loop && env.videoSeek then
      let p := vcapRead env.videoFrame s.initialImageId
      (p.1, { s with nextImgId := 1, pos := p.2 })
    else (none, s)
  else
    let p := vcapRead env.videoFrame s.pos
    match p.1 with
    | some i => (some i, { s with nextImgId := s.nextImgId + 1, pos := p.2 })
    | none =>
      if s.loop && env.videoSeek then
        let q := vcapRead env.videoFrame s.initialImageId
        (q.1, { s with nextImgId := 1, pos := q.2 })
      else (none, { s with nextImgId := s.nextImgId + 1, pos := p.2 })

/-! ## CameraCapWrapper (live camera) -/

/-- Value of `std::numeric_limits<size_t>::max()` on the 64-bit targets the
demos build for. -/
def SIZE_MAX : Nat := 2 ^ 64 - 1

/-- State of `CameraCapWrapper`: the delivered count and the effective frame
limit. -/
structure CameraState where
  nextImgId : Nat
  readLengthLimit : Nat
  loop : Bool
deriving DecidableEq, Repr

/-- Constructor `CameraCapWrapper::CameraCapWrapper`: a `std::stoi` failure
(either exception) gives `InvalidInput`; an index the camera backend cannot
open gives `OpenError`; on success the effective limit is `SIZE_MAX` when
looping, else `readLengthLimit`.  The resolution/buffering/format
configuration calls have no further observable effect in this model, and
`initialImageId` is stored by the C++ class but never used. -/
def CameraCapWrapper.construct (env : Env) (input : String) (loop : Bool)
    (_initialImageId readLengthLimit : Nat) (_cameraResolution : Nat × Nat) :
    Except CapError CameraState :=
  match env.stoi input with
  | none => .error (.invalidInput ("Can't find the camera " ++ input))
  | some idx =>
    if env.cameraOpen idx then
      .ok { nextImgId := 0,
            readLengthLimit := if loop then SIZE_MAX else readLengthLimit,
            loop := loop }
    else .error (.openError ("Can't open the camera from " ++ input))

/-- Method `CameraCapWrapper::read`: `cap` is the result of the one
`cv::VideoCapture::read` attempt this call would make.  Once the limit is
reached the empty frame is returned and no capture is attempted; otherwise a
failed capture throws `std::runtime_error` (modelled as `.error`). -/
def CameraState.read (cap : Option Img) (s : CameraState) :
    Except String (Option Img × CameraState) :=
  if s.readLengthLimit ≤ s.nextImgId then .ok (none, s)
  else
    match cap with
    | none => .error "The image can't be captured from the camera"
    | some i => .ok (some i, { s with nextImgId := s.nextImgId + 1 })

/-- Repeated calls of `CameraCapWrapper::read`: `camFrame` indexes capture
results by the current delivered count; a thrown error aborts the run. -/
def camReadN (camFrame : Nat → Option Img) :
    Nat → CameraState → Except String (List (Option Img) × CameraState)
  | 0, s => .ok ([], s)
  | n + 1, s =>
    match CameraState.read (camFrame s.nextImgId) s with
    | .error e => .error e
    | .ok (o, s') =>
      match camReadN camFrame n s' with
      | .error e => .error e
      | .ok (os, s'') => .ok (o :: os, s'')

/-! ## openImagesCapture (the resolver) -/

/-- Union of the four constructed readers. -/
inductive Reader where
  | image : ImreadState → Reader
  | dir : DirState → Reader
  | video : VideoState → Reader
  | camera : CameraState → Reader
deriving DecidableEq, Repr

/-- Catch clauses of `openImagesCapture`: push the error message onto the
accumulator list of its kind (`invalidInputs`, `openErrors`). -/
def pushErr (acc : List String × List String) (e : CapError) :
    List String × List String :=
  match e with
  | .invalidInput m => (acc.1 ++ [m], acc.2)
  | .openError m => (acc.1, acc.2 ++ [m])

/-- Aggregate error message: every selected message followed by a newline. -/
def joinMsgs (l : List String) : String := String.join (l.map fun m => m ++ "\n")

/-- Diagnostics selected for the aggregate error, stated independently of
the resolver's accumulator threading: the `OpenError` messages in probe
order when there is at least one, else the `InvalidInput` messages in probe
order. -/
def selectDiagnostics (es : List CapError) : List String :=
  let opens := (es.filter fun e => e.isOpen).map CapError.msg
  let invalids := (es.filter fun e => !e.isOpen).map CapError.msg
  if opens.isEmpty then invalids else opens

/-- Function `openImagesCapture`: reject a zero `readLengthLimit`, then try
the four reader constructors in the fixed order still-image, directory,
video, camera, returning the first success; each failure is pushed onto the
list of its kind, and when all four fail the aggregate error concatenates
the `openErrors` if any occurred, else the `invalidInputs`. -/
def openImagesCapture (env : Env) (input : String) (loop : Bool)
    (initialImageId readLengthLimit : Nat) (cameraResolution : Nat × Nat) :
    Except String Reader :=
  if readLengthLimit = 0 then .error "Read length limit must be positive"
  else
    match ImreadWrapper.construct env input loop with
    | .ok s => .ok (.image s)
    | .error e1 =>
      let a1 := pushErr ([], []) e1
      match DirReader.construct env input loop initialImageId readLengthLimit with
      | .ok s => .ok (.dir s)
      | .error e2 =>
        let a2 := pushErr a1 e2
        match VideoCapWrapper.construct env input loop initialImageId readLengthLimit with
        | .ok s => .ok (.video s)
        | .error e3 =>
          let a3 := pushErr a2 e3
          match CameraCapWrapper.construct env input loop initialImageId readLengthLimit
              cameraResolution with
          | .ok s => .ok (.camera s)
          | .error e4 =>
            let a4 := pushErr a3 e4
            .error (joinMsgs (if a4.2.isEmpty then a4.1 else a4.2))

/-! ## Lemmas on the directory scan -/

theorem findNthImage_eq_none {decode : String → Option Img} :
    ∀ {l : List String} {k : Nat},
      findNthImage decode k l = none ↔ (l.filterMap decode).length ≤ k := by
  intro l
  induction l with
  | nil => intro k; simp [findNthImage]
  | cons n rest ih =>
    intro k
    cases hd : decode n with
    | some i =>
      cases k with
      | zero => simp [findNthImage, hd, List.filterMap_cons]
      | succ k' =>
        simp [findNthImage, hd, List.filterMap_cons, Option.map_eq_none', ih,
          Nat.succ_le_succ_iff]
    | none => simp [findNthImage, hd, List.filterMap_cons, Option.map_eq_none', ih]

theorem findNthImage_eq_some {decode : String → Option Img} :
    ∀ {l : List String} {k : Nat} {img : Img} {c : Nat},
      findNthImage decode k l = some (img, c) →
      1 ≤ c ∧ c ≤ l.length
      ∧ (l.filterMap decode)[k]? = some img
      ∧ (l.drop (c - 1)).filterMap decode = (l.filterMap decode).drop k
      ∧ (l.drop c).filterMap decode = (l.filterMap decode).drop (k + 1) := by
  intro l
  induction l with
  | nil => intro k img c h; simp [findNthImage] at h
  | cons n rest ih =>
    intro k img c h
    cases hd : decode n with
    | some i =>
      cases k with
      | zero =>
        simp [findNthImage, hd] at h
        obtain ⟨rfl, rfl⟩ := h
        simp [List.filterMap_cons, hd]
      | succ k' =>
        simp only [findNthImage, hd, Option.map_eq_some'] at h
        obtain ⟨⟨img', c'⟩, hrec, heq⟩ := h
        obtain ⟨rfl, rfl⟩ : img' = img ∧ c' + 1 = c := by simpa using heq
        obtain ⟨hc1, hclen, hget, hdrop1, hdrop2⟩ := ih hrec
        refine ⟨by omega, by simpa using Nat.succ_le_succ hclen, ?_, ?_, ?_⟩
        · simpa [List.filterMap_cons, hd] using hget
        · have hc : c' + 1 - 1 = (c' - 1) + 1 := by omega
          rw [hc, List.drop_succ_cons]
          simpa [List.filterMap_cons, hd] using hdrop1
        · rw [List.drop_succ_cons]
          simpa [List.filterMap_cons, hd] using hdrop2
    | none =>
      simp only [findNthImage, hd, Option.map_eq_some'] at h
      obtain ⟨⟨img', c'⟩, hrec, heq⟩ := h
      obtain ⟨rfl, rfl⟩ : img' = img ∧ c' + 1 = c := by simpa using heq
      obtain ⟨hc1, hclen, hget, hdrop1, hdrop2⟩ := ih hrec
      refine ⟨by omega, by simpa using Nat.succ_le_succ hclen, ?_, ?_, ?_⟩
      · simpa [List.filterMap_cons, hd] using hget
      · have hc : c' + 1 - 1 = (c' - 1) + 1 := by omega
        rw [hc, List.drop_succ_cons]
        simpa [List.filterMap_cons, hd] using hdrop1
      · rw [List.drop_succ_cons]
        simpa [List.filterMap_cons, hd] using hdrop2

theorem findNthImage_isSome {decode : String → Option Img} {l : List String}
    {k : Nat} (h : k < (l.filterMap decode).length) :
    ∃ p, findNthImage decode k l = some p := by
  cases hf : findNthImage decode k l with
  | none => exact absurd (findNthImage_eq_none.mp hf) (by omega)
  | some p => exact ⟨p, rfl⟩

/-- Closed form of a non-looping run of `DirReader::read`: when the suffix of
the sorted listing after the cursor holds exactly the decodable images from
index `t` on, a run of `m` calls returns the next
`readLengthLimit - nextImgId` of those images (at most `m`) and after that
only the empty frame. -/
theorem dirReadN_noloop_run (env : Env) :
    ∀ (m : Nat) (s : DirState) (t : Nat),
      s.loop = false →
      (s.names.drop s.fileId).filterMap (dirDecode env s.input)
        = (s.names.filterMap (dirDecode env s.input)).drop t →
      (dirReadN env m s).1
        = ((((s.names.filterMap (dirDecode env s.input)).drop t).take
              (s.readLengthLimit - s.nextImgId)).take m).map some
          ++ List.replicate
              (m - min (s.readLengthLimit - s.nextImgId)
                ((s.names.filterMap (dirDecode env s.input)).length - t)) none := by
  intro m
  induction m with
  | zero => intro s t hloop hsuf; simp [dirReadN]
  | succ m ih =>
    intro s t hloop hsuf
    by_cases hj : s.nextImgId < s.readLengthLimit
    · by_cases ht : t < (s.names.filterMap (dirDecode env s.input)).length
      · have hlen : 0 < ((s.names.drop s.fileId).filterMap (dirDecode env s.input)).length := by
          rw [hsuf, List.length_drop]; omega
        obtain ⟨⟨img, c⟩, hfind⟩ :=
          @findNthImage_isSome (dirDecode env s.input) (s.names.drop s.fileId) 0 hlen
        obtain ⟨hc1, hclen, hget0, hdropc1, hdropc⟩ := findNthImage_eq_some hfind
        have hcons : (s.names.filterMap (dirDecode env s.input)).drop t
            = img :: (s.names.filterMap (dirDecode env s.input)).drop (t + 1) := by
          rw [List.drop_eq_getElem_cons ht]
          have := hget0
          rw [hsuf, List.drop_eq_getElem_cons ht] at this
          simp at this
          obtain ⟨_, h2⟩ := List.getElem?_eq_some_iff.mp this
          rw [h2]
        have hread : DirState.read env s
            = (some img, { s with fileId := s.fileId + c, nextImgId := s.nextImgId + 1 }) := by
          simp [DirState.read, hj, hfind]
        have hsuf' : (s.names.drop (s.fileId + c)).filterMap (dirDecode env s.input)
            = (s.names.filterMap (dirDecode env s.input)).drop (t + 1) := by
          have h3 := hdropc
          rw [List.drop_drop, hsuf, List.drop_drop] at h3
          simpa using h3
        have hih := ih { s with fileId := s.fileId + c, nextImgId := s.nextImgId + 1 } (t + 1)
          hloop hsuf'
        simp only at hih
        have hsplit : (dirReadN env (m + 1) s).1
            = some img :: (dirReadN env m
                { s with fileId := s.fileId + c, nextImgId := s.nextImgId + 1 }).1 := by
          simp [dirReadN, hread]
        rw [hsplit, hih, hcons]
        have hL : s.readLengthLimit - s.nextImgId
            = (s.readLengthLimit - (s.nextImgId + 1)) + 1 := by omega
        rw [hL, List.take_succ_cons, List.take_succ_cons, List.map_cons, List.cons_append]
        have hcount : m + 1 - min ((s.readLengthLimit - (s.nextImgId + 1)) + 1)
              ((s.names.filterMap (dirDecode env s.input)).length - t)
            = m - min (s.readLengthLimit - (s.nextImgId + 1))
              ((s.names.filterMap (dirDecode env s.input)).length - (t + 1)) := by
          omega
        rw [hcount]
      · have hnil : (s.names.drop s.fileId).filterMap (dirDecode env s.input) = [] := by
          rw [hsuf]
          exact List.drop_eq_nil_of_le (by omega)
        have hfn : findNthImage (dirDecode env s.input) 0 (s.names.drop s.fileId) = none :=
          findNthImage_eq_none.mpr (by rw [hnil]; simp)
        have hread : DirState.read env s = (none, { s with fileId := s.names.length }) := by
          simp [DirState.read, hj, hfn, DirState.restart, hloop]
        have hsuf'' : (s.names.drop s.names.length).filterMap (dirDecode env s.input)
            = (s.names.filterMap (dirDecode env s.input)).drop t := by
          rw [List.drop_length, List.drop_eq_nil_of_le (by omega)]
          simp
        have hih := ih { s with fileId := s.names.length } t hloop hsuf''
        simp only at hih
        have hsplit : (dirReadN env (m + 1) s).1
            = none :: (dirReadN env m { s with fileId := s.names.length }).1 := by
          simp [dirReadN, hread]
        rw [hsplit, hih]
        have hnil2 : (s.names.filterMap (dirDecode env s.input)).drop t = [] :=
          List.drop_eq_nil_of_le (by omega)
        have hmin : min (s.readLengthLimit - s.nextImgId)
            ((s.names.filterMap (dirDecode env s.input)).length - t) = 0 := by omega
        rw [hnil2, hmin]
        simp [List.replicate_succ]
    · have hread : DirState.read env s = (none, s) := by
        simp [DirState.read, hj, DirState.restart, hloop]
      have hih := ih s t hloop hsuf
      have hsplit : (dirReadN env (m + 1) s).1 = none :: (dirReadN env m s).1 := by
        simp [dirReadN, hread]
      rw [hsplit, hih]
      have hL0 : s.readLengthLimit - s.nextImgId = 0 := by omega
      rw [hL0]
      simp [List.replicate_succ]

/-- Run of `ImreadWrapper::read` on an exhausted non-looping reader: only
empty frames. -/
theorem imreadReadN_dead :
    ∀ (n : Nat) (s : ImreadState), s.loop = false → s.canRead = false →
      (imreadReadN n s).1 = List.replicate n none := by
  intro n
  induction n with
  | zero => intro s h1 h2; simp [imreadReadN]
  | succ n ih =>
    intro s h1 h2
    have hread : s.read = (none, s) := by simp [ImreadState.read, h1, h2]
    simp [imreadReadN, hread, ih s h1 h2, List.replicate_succ]

/-- C4: for an `ImreadWrapper` constructed with `loop = false`, the first
`read()` returns the decoded image (a copy of the non-empty frame
`cv::imread` produced at construction) and every subsequent call returns
the empty frame, for any number of calls. -/
theorem C4_single_image_reads_once (env : Env) (input : String) (s0 : ImreadState)
    (h : ImreadWrapper.construct env input false = .ok s0) :
    env.imread input = some s0.img
    ∧ ∀ n : Nat, (imreadReadN (n + 1) s0).1 = some s0.img :: List.replicate n none := by
  rw [ImreadWrapper.construct] at h
  cases hg : env.fileGood input with
  | false => rw [hg] at h; simp at h
  | true =>
    rw [hg] at h
    cases hi : env.imread input with
    | none => rw [hi] at h; simp at h
    | some i =>
      rw [hi] at h
      simp only [Bool.not_true, Bool.false_eq_true, if_false, Except.ok.injEq] at h
      subst h
      refine ⟨rfl, fun n => ?_⟩
      have hread : ImreadState.read { img := i, loop := false, canRead := true }
          = (some i, { img := i, loop := false, canRead := false }) := by
        simp [ImreadState.read]
      simp [imreadReadN, hread,
        imreadReadN_dead n { img := i, loop := false, canRead := false } rfl rfl]

/-- C1: `openImagesCapture` with `readLengthLimit = 0` raises the
configuration error "Read length limit must be positive", and its result is
the same in every environment: no reader constructor is ever attempted. -/
theorem C1_zero_read_length_limit (env env2 : Env) (input : String) (loop : Bool)
    (initialImageId : Nat) (res : Nat × Nat) :
    openImagesCapture env input loop initialImageId 0 res
      = .error "Read length limit must be positive"
    ∧ openImagesCapture env input loop initialImageId 0 res
      = openImagesCapture env2 input loop initialImageId 0 res := by
  constructor <;> simp [openImagesCapture]

/-- C2: the resolver attempts the four reader constructors in the fixed
order still-image, directory, video, camera and returns the first reader
whose construction succeeds; each failure is one of the two `CapError`
kinds — `InvalidInput` ("not this kind", continue) or `OpenError` ("this
kind but could not be opened", recorded as the stronger diagnostic, then
continue). -/
theorem C2_probe_order_first_success (env : Env) (input : String) (loop : Bool)
    (initialImageId readLengthLimit : Nat) (res : Nat × Nat)
    (hL : readLengthLimit ≠ 0) :
    (∀ s, ImreadWrapper.construct env input loop = .ok s →
      openImagesCapture env input loop initialImageId readLengthLimit res = .ok (.image s))
    ∧ (∀ e1 s, ImreadWrapper.construct env input loop = .error e1 →
        DirReader.construct env input loop initialImageId readLengthLimit = .ok s →
        openImagesCapture env input loop initialImageId readLengthLimit res = .ok (.dir s))
    ∧ (∀ e1 e2 s, ImreadWrapper.construct env input loop = .error e1 →
        DirReader.construct env input loop initialImageId readLengthLimit = .error e2 →
        VideoCapWrapper.construct env input loop initialImageId readLengthLimit = .ok s →
        openImagesCapture env input loop initialImageId readLengthLimit res = .ok (.video s))
    ∧ (∀ e1 e2 e3 s, ImreadWrapper.construct env input loop = .error e1 →
        DirReader.construct env input loop initialImageId readLengthLimit = .error e2 →
        VideoCapWrapper.construct env input loop initialImageId readLengthLimit = .error e3 →
        CameraCapWrapper.construct env input loop initialImageId readLengthLimit res = .ok s →
        openImagesCapture env input loop initialImageId readLengthLimit res
          = .ok (.camera s)) := by
  refine ⟨?_, ?_, ?_, ?_⟩ <;> intros <;> simp_all [openImagesCapture]

/-- C3: when all four probes fail, the resolver raises exactly one aggregate
error whose message concatenates, newline-terminated and in probe order, the
`OpenError` diagnostics when at least one occurred, else the `InvalidInput`
diagnostics; when the input matches no kind at all (every failure is
`InvalidInput`) the aggregate holds one diagnostic for every probed kind. -/
theorem C3_aggregate_error (env : Env) (input : String) (loop : Bool)
    (initialImageId readLengthLimit : Nat) (res : Nat × Nat)
    (hL : readLengthLimit ≠ 0) (e1 e2 e3 e4 : CapError)
    (h1 : ImreadWrapper.construct env input loop = .error e1)
    (h2 : DirReader.construct env input loop initialImageId readLengthLimit = .error e2)
    (h3 : VideoCapWrapper.construct env input loop initialImageId readLengthLimit = .error e3)
    (h4 : CameraCapWrapper.construct env input loop initialImageId readLengthLimit res
      = .error e4) :
    openImagesCapture env input loop initialImageId readLengthLimit res
      = .error (joinMsgs (selectDiagnostics [e1, e2, e3, e4]))
    ∧ (e1.isOpen = false → e2.isOpen = false → e3.isOpen = false → e4.isOpen = false →
        selectDiagnostics [e1, e2, e3, e4] = [e1.msg, e2.msg, e3.msg, e4.msg]) := by
  constructor
  · cases e1 <;> cases e2 <;> cases e3 <;> cases e4 <;>
      simp_all [openImagesCapture, pushErr, selectDiagnostics, CapError.isOpen, CapError.msg]
  · intro i1 i2 i3 i4
    cases e1 <;> cases e2 <;> cases e3 <;> cases e4 <;>
      simp_all [selectDiagnostics, CapError.isOpen, CapError.msg]

/-- C5: a `DirReader` constructed with `loop = false` whose sorted listing
holds `N` decodable images, with `initialImageId = k` and
`readLengthLimit = L`, returns from successive `read()` calls exactly
`min L (N - k)` non-empty frames — the decodable images in sorted-filename
order starting from the `k`-th — and the empty frame on every later call. -/
theorem C5_dir_reader_noloop_sequence (env : Env) (input : String) (k L : Nat)
    (s0 : DirState) (h : DirReader.construct env input false k L = .ok s0) (m : Nat) :
    (dirReadN env m s0).1
      = ((((s0.names.filterMap (dirDecode env input)).drop k).take L).take m).map some
        ++ List.replicate
            (m - min L ((s0.names.filterMap (dirDecode env input)).length - k)) none := by
  rw [DirReader.construct] at h
  cases hde : env.dirEntries input with
  | none => rw [hde] at h; simp at h
  | some entries =>
    rw [hde] at h
    simp only at h
    cases hne : (entries.filter fun n => n != "." && n != "..").isEmpty with
    | true => rw [hne] at h; simp at h
    | false =>
      rw [hne] at h
      simp only [Bool.false_eq_true, if_false] at h
      cases hfind : findNthImage (dirDecode env input) k
          (sortNames (entries.filter fun n => n != "." && n != "..")) with
      | none => rw [hfind] at h; simp at h
      | some p =>
        rw [hfind] at h
        simp only [Except.ok.injEq] at h
        subst h
        obtain ⟨hc1, hclen, hget, hdrop1, hdrop2⟩ := findNthImage_eq_some hfind
        have hrun := dirReadN_noloop_run env m
          { names := sortNames (entries.filter fun n => n != "." && n != ".."),
            fileId := p.2 - 1, nextImgId := 0, initialImageId := k,
            readLengthLimit := L, input := input, loop := false } k rfl (by simpa using hdrop1)
        simpa using hrun

/-- C6: for a looping `DirReader`, once a pass is exhausted (the per-pass
counter reached `readLengthLimit`, or the cursor ran past the sorted
listing), the next `read()` rescans from position 0, silently re-skipping
undecodable entries and the first `initialImageId` decodable ones, returns
the `initialImageId`-th decodable image of the sorted listing, and resets
the per-pass delivered count to 1. -/
theorem C6_dir_reader_loop_restart (env : Env) (s : DirState)
    (hloop : s.loop = true)
    (hexh : s.readLengthLimit ≤ s.nextImgId ∨ s.names.length ≤ s.fileId)
    (hk : s.initialImageId < (s.names.filterMap (dirDecode env s.input)).length) :
    (DirState.read env s).1 = (s.names.filterMap (dirDecode env s.input))[s.initialImageId]?
    ∧ (DirState.read env s).2.nextImgId = 1 := by
  obtain ⟨⟨img, c⟩, hfind⟩ :=
    @findNthImage_isSome (dirDecode env s.input) s.names s.initialImageId hk
  obtain ⟨hc1, hclen, hget, hdrop1, hdrop2⟩ := findNthImage_eq_some hfind
  by_cases hj : s.nextImgId < s.readLengthLimit
  · have hend : s.names.length ≤ s.fileId := by
      rcases hexh with hlim | hend
      · omega
      · exact hend
    have hdropnil : s.names.drop s.fileId = [] := List.drop_eq_nil_of_le hend
    have hfn : findNthImage (dirDecode env s.input) 0 (s.names.drop s.fileId) = none := by
      rw [hdropnil]; rfl
    simp [DirState.read, hj, hfn, DirState.restart, hloop, hfind, hget]
  · simp [DirState.read, hj, DirState.restart, hloop, hfind, hget]

/-- C7: a looping `VideoCapWrapper` whose frame decode fails at the current
position re-seeks to `initialImageId` within the failing call and decodes
from there: the per-pass counter is reset to 1 and the position is rewound
to the configured start offset (and advanced past it when that decode
succeeds), so delivery resumes from the start offset. -/
theorem C7_video_loop_resumes_at_start (env : Env) (s : VideoState)
    (hn : s.nextImgId < s.readLengthLimit)
    (hf : env.videoFrame s.pos = none)
    (hloop : s.loop = true) (hseek : env.videoSeek = true) :
    VideoState.read env s
      = ((vcapRead env.videoFrame s.initialImageId).1,
         { s with nextImgId := 1, pos := (vcapRead env.videoFrame s.initialImageId).2 }) := by
  have hnot : ¬ s.readLengthLimit ≤ s.nextImgId := by omega
  simp [VideoState.read, hnot, vcapRead, hf, hloop, hseek]

/-- C8: while the delivered count is below the limit, a failed capture in
`CameraCapWrapper::read` raises the unrecoverable error — it is neither
retried nor returned as the empty end-of-stream frame; once the count has
reached the limit, `read()` returns the empty frame without attempting a
capture (the result is the same whatever a capture would produce). -/
theorem C8_camera_fatal_or_empty (s : CameraState) (cap : Option Img) :
    (s.nextImgId < s.readLengthLimit → cap = none →
      CameraState.read cap s = .error "The image can't be captured from the camera")
    ∧ (s.readLengthLimit ≤ s.nextImgId →
        ∀ c : Option Img, CameraState.read c s = .ok (none, s)) := by
  constructor
  · intro h1 h2
    have hnot : ¬ s.readLengthLimit ≤ s.nextImgId := by omega
    simp [CameraState.read, hnot, h2]
  · intro h1 c
    simp [CameraState.read, h1]

/-- Case facts about the loop-restart path shared by the limit invariant:
the limit is untouched, the counter either stays or is reset to 1, and a
non-empty output forces looping with the counter at 1. -/
theorem dirRestart_cases (env : Env) (s : DirState) :
    (DirState.restart env s).2.readLengthLimit = s.readLengthLimit
    ∧ ((DirState.restart env s).2.nextImgId = s.nextImgId
        ∨ (DirState.restart env s).2.nextImgId = 1)
    ∧ ((DirState.restart env s).1 ≠ none →
        s.loop = true ∧ (DirState.restart env s).2.nextImgId = 1) := by
  cases hl : s.loop with
  | false => simp [DirState.restart, hl]
  | true =>
    cases hfind : findNthImage (dirDecode env s.input) s.initialImageId s.names with
    | none => simp [DirState.restart, hl, hfind]
    | some p => simp [DirState.restart, hl, hfind]

/-- C9: invariant shared by the three limited readers — with
`readLengthLimit ≥ 1` and the per-pass counter within bounds, one `read()`
leaves the limit unchanged and the counter never above it, and a call
entered with the limit already reached delivers a non-empty frame only by
looping, with the counter reset to 1 (for the video reader the position is
then also rewound to the start offset). -/
theorem C9_per_pass_limit_invariant (env : Env) (sd : DirState) (sv : VideoState)
    (sc : CameraState) (cap : Option Img) :
    (1 ≤ sd.readLengthLimit → sd.nextImgId ≤ sd.readLengthLimit →
      (DirState.read env sd).2.readLengthLimit = sd.readLengthLimit
      ∧ (DirState.read env sd).2.nextImgId ≤ sd.readLengthLimit
      ∧ (sd.readLengthLimit ≤ sd.nextImgId → (DirState.read env sd).1 ≠ none →
          sd.loop = true ∧ (DirState.read env sd).2.nextImgId = 1))
    ∧ (1 ≤ sv.readLengthLimit → sv.nextImgId ≤ sv.readLengthLimit →
        (VideoState.read env sv).2.readLengthLimit = sv.readLengthLimit
        ∧ (VideoState.read env sv).2.nextImgId ≤ sv.readLengthLimit
        ∧ (sv.readLengthLimit ≤ sv.nextImgId → (VideoState.read env sv).1 ≠ none →
            sv.loop = true ∧ (VideoState.read env sv).2.nextImgId = 1
            ∧ (VideoState.read env sv).2.pos
                = (vcapRead env.videoFrame sv.initialImageId).2))
    ∧ (1 ≤ sc.readLengthLimit → sc.nextImgId ≤ sc.readLengthLimit →
        ∀ (o : Option Img) (sc2 : CameraState), CameraState.read cap sc = .ok (o, sc2) →
          sc2.readLengthLimit = sc.readLengthLimit
          ∧ sc2.nextImgId ≤ sc.readLengthLimit
          ∧ (sc.readLengthLimit ≤ sc.nextImgId → o = none ∧ sc2 = sc)) := by
  refine ⟨?_, ?_, ?_⟩
  · intro h1 h2
    by_cases hj : sd.nextImgId < sd.readLengthLimit
    · cases hfn : findNthImage (dirDecode env sd.input) 0 (sd.names.drop sd.fileId) with
      | some p =>
        have hread : DirState.read env sd
            = (some p.1,
               { sd with
                  fileId := sd.fileId + p.2,
                  nextImgId := sd.nextImgId + 1 }) := by
          simp [DirState.read, hj, hfn]
        rw [hread]
        dsimp only
        exact ⟨rfl, by omega, fun hlim _ => absurd hlim (by omega)⟩
      | none =>
        have hread : DirState.read env sd
            = DirState.restart env { sd with fileId := sd.names.length } := by
          simp [DirState.read, hj, hfn]
        rw [hread]
        obtain ⟨hA, hB, hC⟩ := dirRestart_cases env { sd with fileId := sd.names.length }
        simp only at hA hB hC
        exact ⟨hA, by omega, fun hlim _ => absurd hlim (by omega)⟩
    · have hread : DirState.read env sd = DirState.restart env sd := by
        simp [DirState.read, hj]
      rw [hread]
      obtain ⟨hA, hB, hC⟩ := dirRestart_cases env sd
      exact ⟨hA, by omega, fun _ hne => hC hne⟩
  · intro h1 h2
    by_cases hlim : sv.readLengthLimit ≤ sv.nextImgId
    · cases hls : sv.loop && env.videoSeek with
      | true =>
        have hl : sv.loop = true := by
          cases hll : sv.loop <;> simp [hll] at hls ⊢
        have hread : VideoState.read env sv
            = ((vcapRead env.videoFrame sv.initialImageId).1,
               { sv with
                  nextImgId := 1,
                  pos := (vcapRead env.videoFrame sv.initialImageId).2 }) := by
          simp [VideoState.read, hlim, hls]
        rw [hread]
        dsimp only
        exact ⟨rfl, by omega, fun _ _ => ⟨hl, rfl, rfl⟩⟩
      | false =>
        have hread : VideoState.read env sv = (none, sv) := by
          simp [VideoState.read, hlim, hls]
        rw [hread]
        exact ⟨rfl, h2, fun _ hne => absurd rfl hne⟩
    · cases hfp : env.videoFrame sv.pos with
      | some i =>
        have hread : VideoState.read env sv
            = (some i, { sv with nextImgId := sv.nextImgId + 1, pos := sv.pos + 1 }) := by
          simp [VideoState.read, hlim, vcapRead, hfp]
        rw [hread]
        dsimp only
        exact ⟨rfl, by omega, fun hl _ => absurd hl (by omega)⟩
      | none =>
        cases hls : sv.loop && env.videoSeek with
        | true =>
          have hread : VideoState.read env sv
              = ((vcapRead env.videoFrame sv.initialImageId).1,
                 { sv with
                    nextImgId := 1,
                    pos := (vcapRead env.videoFrame sv.initialImageId).2 }) := by
            simp [VideoState.read, hlim, vcapRead, hfp, hls]
          rw [hread]
          dsimp only
          exact ⟨rfl, by omega, fun hl _ => absurd hl (by omega)⟩
        | false =>
          have hread : VideoState.read env sv
              = (none, { sv with nextImgId := sv.nextImgId + 1, pos := sv.pos }) := by
            simp [VideoState.read, hlim, vcapRead, hfp, hls]
          rw [hread]
          dsimp only
          exact ⟨rfl, by omega, fun hl _ => absurd hl (by omega)⟩
  · intro h1 h2 o sc2 hok
    by_cases hlim : sc.readLengthLimit ≤ sc.nextImgId
    · have : CameraState.read cap sc = .ok (none, sc) := by
        simp [CameraState.read, hlim]
      rw [this] at hok
      obtain ⟨rfl, rfl⟩ : none = o ∧ sc = sc2 := by
        simpa [Prod.ext_iff] using hok
      exact ⟨rfl, h2, fun _ => ⟨rfl, rfl⟩⟩
    · cases hc : cap with
      | none => simp [CameraState.read, hlim, hc] at hok
      | some i =>
        have : CameraState.read cap sc
            = .ok (some i, { sc with nextImgId := sc.nextImgId + 1 }) := by
          simp [CameraState.read, hlim, hc]
        rw [this] at hok
        obtain ⟨rfl, rfl⟩ : some i = o ∧ { sc with nextImgId := sc.nextImgId + 1 } = sc2 := by
          simpa [Prod.ext_iff] using hok
        refine ⟨rfl, ?_, fun hl => absurd hl (by omega)⟩
        show sc.nextImgId + 1 ≤ sc.readLengthLimit
        omega

/-- Claim C10 as stated: on no run does the camera reader ever return the
empty frame. -/
def cameraNeverEmpty (camFrame : Nat → Option Img) (s : CameraState) : Prop :=
  ∀ (n : Nat) (outs : List (Option Img)) (s2 : CameraState),
    camReadN camFrame n s = .ok (outs, s2) → ∀ o ∈ outs, o ≠ none

/-- Run of `CameraCapWrapper::read` with every capture succeeding: the run
succeeds, the counter saturates at the limit, and the empty frame appears
as soon as the run crosses the limit. -/
theorem camReadN_allSome (i : Img) :
    ∀ (n : Nat) (s : CameraState), s.nextImgId ≤ s.readLengthLimit →
      ∃ outs s2,
        camReadN (fun _ => some i) n s = .ok (outs, s2)
        ∧ s2.nextImgId = min (s.nextImgId + n) s.readLengthLimit
        ∧ s2.readLengthLimit = s.readLengthLimit
        ∧ (s.readLengthLimit < s.nextImgId + n → none ∈ outs) := by
  intro n
  induction n with
  | zero =>
    intro s hb
    exact ⟨[], s, rfl, by omega, rfl, by omega⟩
  | succ n ih =>
    intro s hb
    by_cases hlim : s.readLengthLimit ≤ s.nextImgId
    · have hread : CameraState.read (some i) s = .ok (none, s) := by
        simp [CameraState.read, hlim]
      obtain ⟨outs, s2, hrun, h1, h2, h3⟩ := ih s hb
      refine ⟨none :: outs, s2, ?_, by omega, h2, fun _ => List.mem_cons_self none outs⟩
      simp [camReadN, hread, hrun]
    · have hread : CameraState.read (some i) s
          = .ok (some i, { s with nextImgId := s.nextImgId + 1 }) := by
        simp [CameraState.read, hlim]
      obtain ⟨outs, s2, hrun, h1, h2, h3⟩ :=
        ih { s with nextImgId := s.nextImgId + 1 } (by simp; omega)
      simp only at h1 h2 h3
      refine ⟨some i :: outs, s2, ?_, by omega, h2, ?_⟩
      · simp [camReadN, hread, hrun]
      · intro hcross
        exact List.mem_cons_of_mem _ (h3 (by omega))

/-- Run of `CameraCapWrapper::read` that stays within the limit: a
successful run delivers no empty frame. -/
theorem camReadN_ok_no_empty (camFrame : Nat → Option Img) :
    ∀ (n : Nat) (s : CameraState) (outs : List (Option Img)) (s2 : CameraState),
      camReadN camFrame n s = .ok (outs, s2) →
      s.nextImgId + n ≤ s.readLengthLimit →
      ∀ o ∈ outs, o ≠ none := by
  intro n
  induction n with
  | zero =>
    intro s outs s2 h hb
    simp only [camReadN, Except.ok.injEq] at h
    obtain ⟨rfl, rfl⟩ : [] = outs ∧ s = s2 := by simpa [Prod.ext_iff] using h
    simp
  | succ n ih =>
    intro s outs s2 h hb
    have hlim : ¬ s.readLengthLimit ≤ s.nextImgId := by omega
    cases hc : camFrame s.nextImgId with
    | none =>
      have : CameraState.read (camFrame s.nextImgId) s
          = .error "The image can't be captured from the camera" := by
        simp [CameraState.read, hlim, hc]
      rw [camReadN, this] at h
      simp at h
    | some i =>
      have hread : CameraState.read (camFrame s.nextImgId) s
          = .ok (some i, { s with nextImgId := s.nextImgId + 1 }) := by
        simp [CameraState.read, hlim, hc]
      cases hrec : camReadN camFrame n { s with nextImgId := s.nextImgId + 1 } with
      | error e => simp [camReadN, hread, hrec] at h
      | ok q =>
        simp only [camReadN, hread, hrec] at h
        obtain ⟨rfl, rfl⟩ : some i :: q.1 = outs ∧ q.2 = s2 := by
          simpa [Prod.ext_iff] using h
        intro o ho
        rcases List.mem_cons.mp ho with rfl | ho2
        · exact Option.some_ne_none i
        · exact ih { s with nextImgId := s.nextImgId + 1 } q.1 q.2
            hrec (by simp; omega) o ho2

/-- Concrete environment in which `std::stoi "0"` parses and camera device
0 opens. -/
def envCam : Env :=
  { fileGood := fun _ => false, imread := fun _ => none, dirEntries := fun _ => none,
    videoOpen := fun _ => false, videoSeek := false, videoFrame := fun _ => none,
    stoi := fun p => if p == "0" then some 0 else none, cameraOpen := fun _ => true }

/-- Camera state produced by `CameraCapWrapper::CameraCapWrapper` with
`loop = true`. -/
def camLoopState : CameraState :=
  { nextImgId := 0, readLengthLimit := SIZE_MAX, loop := true }

/-- C10 (amended): a `CameraCapWrapper` constructed with `loop = true` has
its effective frame limit set to `SIZE_MAX = 2^64 - 1`, and on any
successful run of at most `SIZE_MAX` calls `read()` never returns the empty
frame — each such call returns a captured frame or raises the fatal capture
error.  The empty end-of-stream frame becomes reachable only once `SIZE_MAX`
frames have been delivered (see the counterexample to the unbounded
claim). -/
theorem C10_camera_loop_no_empty_within_limit (env : Env) (input : String)
    (initialImageId readLengthLimit : Nat) (res : Nat × Nat) (s0 : CameraState)
    (h : CameraCapWrapper.construct env input true initialImageId readLengthLimit res
      = .ok s0) :
    s0.readLengthLimit = SIZE_MAX
    ∧ ∀ (camFrame : Nat → Option Img) (n : Nat) (outs : List (Option Img))
        (s2 : CameraState),
        n ≤ SIZE_MAX → camReadN camFrame n s0 = .ok (outs, s2) →
        ∀ o ∈ outs, o ≠ none := by
  cases hst : env.stoi input with
  | none => simp [CameraCapWrapper.construct, hst] at h
  | some idx =>
    cases hco : env.cameraOpen idx with
    | false => simp [CameraCapWrapper.construct, hst, hco] at h
    | true =>
      simp only [CameraCapWrapper.construct, hst, hco, if_true, Except.ok.injEq] at h
      rw [← h]
      refine ⟨rfl, ?_⟩
      intro camFrame n outs s2 hn hok
      exact camReadN_ok_no_empty camFrame n _ outs s2 hok (by simpa using hn)

/-- Counterexample to C10 as stated: the looping camera state is reachable
from the constructor, yet with every capture succeeding the reader returns
the empty frame on call number `SIZE_MAX + 1`, so it is not true that the
empty result is unreachable while looping. -/
theorem C10_counterexample_empty_reachable :
    CameraCapWrapper.construct envCam "0" true 0 5 (0, 0) = .ok camLoopState
    ∧ ¬ cameraNeverEmpty (fun _ => some 0) camLoopState := by
  constructor
  · rfl
  · intro hne
    obtain ⟨outs, s2, hok, h1, h2, h3⟩ :=
      camReadN_allSome 0 (SIZE_MAX + 1) camLoopState (by simp [camLoopState])
    exact hne (SIZE_MAX + 1) outs s2 hok none (h3 (by simp [camLoopState])) rfl

/-! ## Concrete environments and states used by the witnesses -/

/-- Environment in which every probe fails as "not this kind". -/
def envNone : Env :=
  { fileGood := fun _ => false, imread := fun _ => none, dirEntries := fun _ => none,
    videoOpen := fun _ => false, videoSeek := false, videoFrame := fun _ => none,
    stoi := fun _ => none, cameraOpen := fun _ => false }

/-- Environment holding one readable, decodable image file "i". -/
def envImg : Env :=
  { fileGood := fun p => p == "i", imread := fun p => if p == "i" then some 7 else none,
    dirEntries := fun _ => none, videoOpen := fun _ => false, videoSeek := false,
    videoFrame := fun _ => none, stoi := fun _ => none, cameraOpen := fun _ => false }

/-- Environment holding a directory "d" whose raw listing is
["c", ".", "a", "b", ".."]; entries "a" and "c" decode as images. -/
def envDir : Env :=
  { fileGood := fun _ => false,
    imread := fun p => if p == "d/a" then some 10 else if p == "d/c" then some 11 else none,
    dirEntries := fun p => if p == "d" then some ["c", ".", "a", "b", ".."] else none,
    videoOpen := fun _ => false, videoSeek := false, videoFrame := fun _ => none,
    stoi := fun _ => none, cameraOpen := fun _ => false }

/-- Environment holding a video "v" whose frame 5 fails to decode. -/
def envVid : Env :=
  { fileGood := fun _ => false, imread := fun _ => none, dirEntries := fun _ => none,
    videoOpen := fun p => p == "v", videoSeek := true,
    videoFrame := fun t => if t == 5 then none else some t,
    stoi := fun _ => none, cameraOpen := fun _ => false }

/-- State of the still-image reader over `envImg`. -/
def s0img : ImreadState := { img := 7, loop := false, canRead := true }

/-- State of the non-looping directory reader over `envDir`. -/
def s0dir : DirState :=
  { names := ["a", "b", "c"], fileId := 0, nextImgId := 0, initialImageId := 0,
    readLengthLimit := 2, input := "d", loop := false }

/-- Exhausted looping directory-reader state over `envDir`. -/
def s6dir : DirState :=
  { names := ["a", "b", "c"], fileId := 3, nextImgId := 2, initialImageId := 0,
    readLengthLimit := 2, input := "d", loop := true }

/-- Looping video-reader state positioned at the failing frame of `envVid`. -/
def s7vid : VideoState :=
  { pos := 5, nextImgId := 3, initialImageId := 2, readLengthLimit := 10, loop := true }

/-! ## Witnesses -/

/-- Witness for C2: at `envImg` the still-image probe succeeds and the
resolver returns it. -/
theorem C2_witness :
    openImagesCapture envImg "i" false 0 1 (0, 0) = .ok (.image s0img) :=
  (C2_probe_order_first_success envImg "i" false 0 1 (0, 0) (by decide)).1 s0img rfl

/-- Witness for C3: at `envNone` every probe fails as `InvalidInput` and the
aggregate error carries all four diagnostics. -/
theorem C3_witness :
    openImagesCapture envNone "x" false 0 1 (0, 0)
      = .error (joinMsgs (selectDiagnostics
          [.invalidInput ("Can't find the image by " ++ "x"),
           .invalidInput ("Can't find the dir by " ++ "x"),
           .invalidInput ("Can't open the video from " ++ "x"),
           .invalidInput ("Can't find the camera " ++ "x")])) :=
  (C3_aggregate_error envNone "x" false 0 1 (0, 0) (by decide)
    (.invalidInput ("Can't find the image by " ++ "x"))
    (.invalidInput ("Can't find the dir by " ++ "x"))
    (.invalidInput ("Can't open the video from " ++ "x"))
    (.invalidInput ("Can't find the camera " ++ "x")) rfl rfl rfl rfl).1

/-- Witness for C4 at `envImg`: three reads give the image then two empties. -/
theorem C4_witness :
    (imreadReadN 3 s0img).1 = some s0img.img :: List.replicate 2 none :=
  (C4_single_image_reads_once envImg "i" s0img rfl).2 2

/-- Witness for C5 at `envDir` with `k = 0`, `L = 2`: three reads give the
two decodable images in sorted order, then the empty frame. -/
theorem C5_witness :
    (dirReadN envDir 3 s0dir).1
      = ((((s0dir.names.filterMap (dirDecode envDir "d")).drop 0).take 2).take 3).map some
        ++ List.replicate
            (3 - min 2 ((s0dir.names.filterMap (dirDecode envDir "d")).length - 0)) none :=
  C5_dir_reader_noloop_sequence envDir "d" 0 2 s0dir (by with_unfolding_all rfl) 3

/-- Witness for C6 at `envDir`: the exhausted looping reader restarts and
returns the first decodable image with the counter at 1. -/
theorem C6_witness :
    (DirState.read envDir s6dir).1
      = (s6dir.names.filterMap (dirDecode envDir s6dir.input))[s6dir.initialImageId]?
    ∧ (DirState.read envDir s6dir).2.nextImgId = 1 :=
  C6_dir_reader_loop_restart envDir s6dir rfl (Or.inl (by decide)) (by decide)

/-- Witness for C7 at `envVid`: a decode failure at position 5 re-seeks to
the start offset 2 with the counter reset to 1. -/
theorem C7_witness :
    VideoState.read envVid s7vid
      = ((vcapRead envVid.videoFrame s7vid.initialImageId).1,
         { s7vid with
            nextImgId := 1,
            pos := (vcapRead envVid.videoFrame s7vid.initialImageId).2 }) :=
  C7_video_loop_resumes_at_start envVid s7vid (by decide) (by decide) rfl rfl

/-- Witness for C10 at `envCam`: the constructed looping camera reader has
the `SIZE_MAX` effective limit. -/
theorem C10_witness : camLoopState.readLengthLimit = SIZE_MAX :=
  (C10_camera_loop_no_empty_within_limit envCam "0" 0 5 (0, 0) camLoopState rfl).1

end ImagesCapture
